import Mathlib

/-!
Shallow embedding of the credit-metering backend of the voice-translation
application: the Convex mutations in `convex/users.ts`,
`convex/usageSessions.ts`, `convex/payments.ts`, and the client hook
`src/hooks/useTrackUsage.tsx`.  Credit amounts are exact rationals; the
JavaScript idiom `Math.round(x * 100) / 100` becomes `round2`.  A Convex
mutation is modelled as the state its handler wrote together with its
outcome (`MutResult`); Convex runs each mutation as a transaction, so a
thrown error aborts it and the committed state of a failed mutation is the
unchanged input state (`committed`).
-/

namespace Tolki

/-- JavaScript `Math.round`: rounds halves toward positive infinity. -/
def jsRound (x : ℚ) : ℤ := ⌊x + 1 / 2⌋

/-- Two-decimal rounding applied on balance mutations in the source:
`Math.round(x * 100) / 100`. -/
def round2 (x : ℚ) : ℚ := (jsRound (x * 100) : ℚ) / 100

/-- Minimum session charge from `usageSessions.ts`: 0.05 credits, worth 3
seconds of usage. -/
def minimumCharge : ℚ := 5 / 100

/-- Row of the `users` table (`convex/schema.ts`). -/
structure User where
  clerkId : String
  email : String
  name : String
  credits : ℚ
  totalCreditsEverPurchased : ℚ
  defaultLanguage : Option String
  createdAt : ℕ
  lastActive : ℕ
deriving Repr, DecidableEq

/-- Row of the `usageSessions` table (`convex/schema.ts`); `secondsUsed`
is optional in the schema (legacy rows predate the field). -/
structure Session where
  userId : ℕ
  creditsUsed : ℚ
  secondsUsed : Option ℚ
  languageFrom : String
  languageTo : String
  startedAt : ℕ
  endedAt : Option ℕ
  isActive : Bool
deriving Repr, DecidableEq

/-- State of one account: its `users` row and its `usageSessions` rows.
Sessions are referenced by list index, standing for Convex document ids. -/
structure DB where
  user : User
  sessions : List Session
deriving Repr, DecidableEq

/-- Outcome of running a Convex mutation handler: the state as written by
the handler body, together with the returned value or thrown error. -/
structure MutResult (σ α : Type) where
  state : σ
  result : Except String α
deriving Repr

/-- Convex commits a mutation's writes only when the handler returns
normally; on a thrown error the whole transaction rolls back. -/
def committed {σ α : Type} (db : σ) (r : MutResult σ α) : σ :=
  match r.result with
  | .ok _ => r.state
  | .error _ => db

/-- Patch applied by `startSession` to each stale active session:
`{ isActive: false, endedAt: Date.now() }`. -/
def closeStale (now : ℕ) (s : Session) : Session :=
  if s.isActive then { s with isActive := false, endedAt := some now } else s

/-- Mutation `startSession` of `usageSessions.ts`: reject a non-positive
balance, close every currently active session of the account, reject a
balance below the minimum charge, debit the minimum charge (rounded to two
decimals), and insert the new active session with `secondsUsed = 3`,
`creditsUsed = 0.05`.  Returns the new session's id (here: its index). -/
def startSession (now : ℕ) (languageFrom languageTo : String) (db : DB) :
    MutResult DB ℕ :=
  if db.user.credits ≤ 0 then
    ⟨db, .error "Insufficient credits"⟩
  else
    let sessionsClosed := db.sessions.map (closeStale now)
    if db.user.credits < minimumCharge then
      ⟨{ db with sessions := sessionsClosed },
       .error "Insufficient credits. Minimum 0.05 credits required"⟩
    else
      let newSession : Session :=
        { userId := 0
          creditsUsed := minimumCharge
          secondsUsed := some 3
          languageFrom := languageFrom
          languageTo := languageTo
          startedAt := now
          endedAt := none
          isActive := true }
      ⟨{ user := { db.user with
            credits := round2 (db.user.credits - minimumCharge)
            lastActive := now }
         sessions := sessionsClosed ++ [newSession] },
       .ok sessionsClosed.length⟩

/-- Value returned by a successful `endSession` call. -/
structure FinalUsage where
  creditsUsed : ℚ
  secondsUsed : ℚ
  duration : ℕ
deriving Repr, DecidableEq

/-- Mutation `endSession` of `usageSessions.ts`: unknown session throws;
an already-inactive session returns immediately (plain `return;`, i.e.
`none` here) without any write; an active session is closed and its usage
reconciled to the larger of the tick-accumulated `secondsUsed` and the
elapsed wall-clock seconds, with `creditsUsed` at least the minimum
charge. -/
def endSession (now : ℕ) (sessionId : ℕ) (db : DB) :
    MutResult DB (Option FinalUsage) :=
  match db.sessions[sessionId]? with
  | none => ⟨db, .error "Session not found"⟩
  | some session =>
    if session.isActive then
      let actualSecondsUsed : ℚ := ((now - session.startedAt) / 1000 : ℕ)
      let storedSecondsUsed : ℚ := session.secondsUsed.getD 0
      let totalSecondsUsed := max actualSecondsUsed storedSecondsUsed
      let finalCreditsUsed :=
        max minimumCharge (round2 (totalSecondsUsed / 60))
      let finalSession : Session :=
        { session with
            isActive := false
            endedAt := some now
            secondsUsed := some totalSecondsUsed
            creditsUsed := finalCreditsUsed }
      ⟨{ db with sessions := db.sessions.set sessionId finalSession },
       .ok (some
          { creditsUsed := finalCreditsUsed
            secondsUsed := totalSecondsUsed
            duration := now - session.startedAt })⟩
    else
      ⟨db, .ok none⟩

/-- First session with `isActive = true`, with its index: the `.first()`
of the `by_active` index query. -/
def findActive : List Session → Option (ℕ × Session)
  | [] => none
  | s :: rest =>
    if s.isActive then some (0, s)
    else (findActive rest).map (fun p => (p.1 + 1, p.2))

/-- Value returned by a successful `updateFractionalCredits` call. -/
structure TickResult where
  creditsRemaining : ℚ
  sessionCreditsUsed : ℚ
  secondsUsed : ℚ
deriving Repr, DecidableEq

/-- Mutation `updateFractionalCredits` of `usageSessions.ts` (the per-tick
debit, normally `secondsToAdd = 3`).  With no active session it throws.
If the balance is below the tick's charge `secondsToAdd / 60`, the handler
writes a finalized session (seconds incremented, credits recomputed), sets
the balance to 0, and then throws — writes that Convex rolls back.
Otherwise it adds the seconds to the session, recomputes the session's
`creditsUsed`, and debits the rounded charge from the balance. -/
def updateFractionalCredits (now : ℕ) (secondsToAdd : ℚ) (db : DB) :
    MutResult DB TickResult :=
  match findActive db.sessions with
  | none => ⟨db, .error "No active session found"⟩
  | some (i, activeSession) =>
    let creditsToDeduct := secondsToAdd / 60
    if db.user.credits < creditsToDeduct then
      let currentSeconds := activeSession.secondsUsed.getD 0
      let finalSecondsUsed := currentSeconds + secondsToAdd
      let finalCreditsUsed := round2 (finalSecondsUsed / 60)
      let finalSession : Session :=
        { activeSession with
            isActive := false
            endedAt := some now
            secondsUsed := some finalSecondsUsed
            creditsUsed := finalCreditsUsed }
      ⟨{ user := { db.user with credits := 0, lastActive := now }
         sessions := db.sessions.set i finalSession },
       .error "Insufficient credits - session ended"⟩
    else
      let currentSecondsUsed := activeSession.secondsUsed.getD 0
      let newSecondsUsed := currentSecondsUsed + secondsToAdd
      let newCreditsUsed := round2 (newSecondsUsed / 60)
      let newBalance := round2 (db.user.credits - creditsToDeduct)
      let tickedSession : Session :=
        { activeSession with
            secondsUsed := some newSecondsUsed
            creditsUsed := newCreditsUsed }
      ⟨{ user := { db.user with credits := newBalance, lastActive := now }
         sessions := db.sessions.set i tickedSession },
       .ok { creditsRemaining := newBalance
             sessionCreditsUsed := newCreditsUsed
             secondsUsed := newSecondsUsed }⟩

/-- Mutation `deductCredits` of `users.ts`: throw when the balance is below
the requested amount, otherwise debit and round to two decimals. -/
def deductCredits (now : ℕ) (credits : ℚ) (db : DB) : MutResult DB ℚ :=
  if db.user.credits < credits then
    ⟨db, .error "Insufficient credits"⟩
  else
    let newBalance := round2 (db.user.credits - credits)
    ⟨{ db with user := { db.user with
          credits := newBalance, lastActive := now } },
     .ok newBalance⟩

/-- Mutation `addCredits` of `users.ts`: unconditionally credit the balance
and `totalCreditsEverPurchased` (no rounding in the source). -/
def addCredits (now : ℕ) (credits : ℚ) (db : DB) : MutResult DB ℚ :=
  ⟨{ db with user := { db.user with
        credits := db.user.credits + credits
        totalCreditsEverPurchased :=
          db.user.totalCreditsEverPurchased + credits
        lastActive := now } },
   .ok (db.user.credits + credits)⟩

/-- Number of sessions of the account whose `isActive` flag is set. -/
def activeCount (l : List Session) : ℕ := (l.filter (·.isActive)).length

/-- Status of a `creditPurchases` row (`convex/schema.ts`). -/
inductive PurchaseStatus
  | pending
  | completed
  | failed
deriving Repr, DecidableEq

/-- Row of the `creditPurchases` table (`convex/schema.ts`). -/
structure Purchase where
  userId : ℕ
  amount : ℚ
  credits : ℚ
  stripePaymentIntentId : Option String
  status : PurchaseStatus
  purchasedAt : ℕ
deriving Repr, DecidableEq

/-- State touched by `confirmPayment`: one purchase row and the row of the
user it belongs to. -/
structure PayDB where
  user : User
  purchase : Purchase
deriving Repr, DecidableEq

/-- Value returned by a successful `confirmPayment` call. -/
structure ConfirmResult where
  newBalance : ℚ
  creditsAdded : ℚ
deriving Repr, DecidableEq

/-- Mutation `confirmPayment` of `payments.ts`: an already-completed
purchase throws before any write; otherwise the purchase is marked
completed and the purchase's credits are added to the user's balance and
`totalCreditsEverPurchased`. -/
def confirmPayment (stripeId : Option String) (db : PayDB) :
    MutResult PayDB ConfirmResult :=
  if db.purchase.status = .completed then
    ⟨db, .error "Purchase already completed"⟩
  else
    ⟨{ user := { db.user with
          credits := db.user.credits + db.purchase.credits
          totalCreditsEverPurchased :=
            db.user.totalCreditsEverPurchased + db.purchase.credits }
       purchase := { db.purchase with
          status := .completed
          stripePaymentIntentId := stripeId } },
     .ok { newBalance := db.user.credits + db.purchase.credits
           creditsAdded := db.purchase.credits }⟩

/-- Mutation `createOrUpdateUser` of `users.ts` over the `users` table:
patch `email`, `name`, `lastActive` of the first row matching the Clerk id,
or insert a fresh row with 10 free credits and zero lifetime purchases. -/
def createOrUpdateUser (now : ℕ) (clerkId email name : String) :
    List User → List User
  | [] =>
    [{ clerkId := clerkId
       email := email
       name := name
       credits := 10
       totalCreditsEverPurchased := 0
       defaultLanguage := none
       createdAt := now
       lastActive := now }]
  | u :: rest =>
    if u.clerkId = clerkId then
      { u with email := email, name := name, lastActive := now } :: rest
    else
      u :: createOrUpdateUser now clerkId email name rest

/-- Result of one client-side metering interval (`useTrackUsage.tsx`):
the account state after the tick and the client's reaction, and whether
tracking stopped with the depletion callback fired. -/
structure ClientTickOutcome where
  db : DB
  depleted : Bool
deriving Repr

/-- One 3-second interval of the client hook `useTrackUsage.tsx`: call
`updateFractionalCredits` with `secondsToAdd = 3`; on success stop tracking
(ending the session) and fire `onCreditsDepletedCallback` when
`creditsRemaining <= 0.15`; on a thrown error also stop tracking and fire
the callback.  `sessionId` is the session id the client holds. -/
def clientTick (now : ℕ) (sessionId : ℕ) (db : DB) : ClientTickOutcome :=
  let r := updateFractionalCredits now 3 db
  match r.result with
  | .ok tr =>
    if tr.creditsRemaining ≤ 15 / 100 then
      { db := committed r.state (endSession now sessionId r.state)
        depleted := true }
    else
      { db := r.state, depleted := false }
  | .error _ =>
    { db := committed db (endSession now sessionId db), depleted := true }

/-- One successful server tick with the client's fixed `secondsToAdd = 3`:
the committed state when `updateFractionalCredits` returns normally,
`none` when it throws. -/
def tickOnce (now : ℕ) (db : DB) : Option DB :=
  match updateFractionalCredits now 3 db with
  | ⟨db1, .ok _⟩ => some db1
  | ⟨_, .error _⟩ => none

/-- The state after `n` consecutive successful ticks, `none` if any tick
throws. -/
def tickN (now : ℕ) : ℕ → DB → Option DB
  | 0, db => some db
  | n + 1, db => (tickOnce now db).bind (tickN now n)

/-- Sample account used to exercise the theorems on concrete inputs. -/
def sampleUser : User :=
  { clerkId := "user_1"
    email := "ada@example.com"
    name := "Ada"
    credits := 10
    totalCreditsEverPurchased := 0
    defaultLanguage := none
    createdAt := 0
    lastActive := 0 }

/-- Sample freshly created session (the state `startSession` inserts). -/
def sampleActiveSession : Session :=
  { userId := 0
    creditsUsed := minimumCharge
    secondsUsed := some 3
    languageFrom := "en"
    languageTo := "no"
    startedAt := 0
    endedAt := none
    isActive := true }

/-- Sample account with one active session and a healthy balance. -/
def sampleDB : DB := ⟨sampleUser, [sampleActiveSession]⟩

/-- Sample account whose balance is 0.15 at tick time. -/
def lowBalanceDB : DB :=
  ⟨{ sampleUser with credits := 15 / 100 }, [sampleActiveSession]⟩

/-- Sample account whose balance of 0.04 cannot cover the next tick. -/
def insufficientDB : DB :=
  ⟨{ sampleUser with credits := 4 / 100 }, [sampleActiveSession]⟩

/-- Sample session that has already been ended. -/
def endedSession : Session :=
  { sampleActiveSession with isActive := false, endedAt := some 4000 }

/-- Sample account whose only session is already ended. -/
def endedDB : DB := ⟨sampleUser, [endedSession]⟩

/-- Closed form of the sample session after `endSession` at time 5000ms. -/
def sampleClosedSession : Session :=
  { sampleActiveSession with
      isActive := false
      endedAt := some 5000
      secondsUsed := some 5
      creditsUsed := 8 / 100 }

/-- Sample account holding exactly the minimum session charge. -/
def exactMinDB : DB := ⟨{ sampleUser with credits := 5 / 100 }, []⟩

/-- Sample user row right after `startSession` at time 100ms debits the
minimum charge from the 10-credit balance. -/
def startedUser : User :=
  { sampleUser with credits := 995 / 100, lastActive := 100 }

/-- Sample stale session force-closed by `startSession` at time 100ms. -/
def closedOldSession : Session :=
  { sampleActiveSession with isActive := false, endedAt := some 100 }

/-- Session inserted by `startSession` at time 100ms. -/
def newSession100 : Session :=
  { userId := 0
    creditsUsed := minimumCharge
    secondsUsed := some 3
    languageFrom := "en"
    languageTo := "no"
    startedAt := 100
    endedAt := none
    isActive := true }

/-- Sample account right after the session start at time 100ms. -/
def startedDB : DB := ⟨startedUser, [closedOldSession, newSession100]⟩

/-- Sample account after one successful tick at time 400ms. -/
def tick1DB : DB :=
  ⟨{ startedUser with credits := 990 / 100, lastActive := 400 },
    [closedOldSession,
      { newSession100 with secondsUsed := some 6, creditsUsed := 10 / 100 }]⟩

/-- Sample account after two successful ticks at time 400ms. -/
def tick2DB : DB :=
  ⟨{ startedUser with credits := 985 / 100, lastActive := 400 },
    [closedOldSession,
      { newSession100 with secondsUsed := some 9, creditsUsed := 15 / 100 }]⟩

/-- Sample pending purchase of the 30-credit package. -/
def samplePurchase : Purchase :=
  { userId := 0
    amount := 400
    credits := 30
    stripePaymentIntentId := none
    status := .pending
    purchasedAt := 0 }

/-- Sample payment state: `sampleUser` with a pending purchase. -/
def samplePayDB : PayDB := ⟨sampleUser, samplePurchase⟩

/-- Sample payment state whose purchase is already completed. -/
def sampleCompletedPayDB : PayDB :=
  ⟨sampleUser, { samplePurchase with status := .completed }⟩

/-! Helper lemmas shared by the claim theorems. -/

theorem round2_nonneg {x : ℚ} (hx : 0 ≤ x) : 0 ≤ round2 x := by
  unfold round2 jsRound
  have h : (0 : ℤ) ≤ ⌊x * 100 + 1 / 2⌋ := by
    rw [Int.le_floor]
    push_cast
    nlinarith
  positivity

theorem closeStale_not_active (now : ℕ) (s : Session) :
    (closeStale now s).isActive = false := by
  unfold closeStale
  split
  · rfl
  · rename_i h
    simpa using h

theorem findActive_eq {l : List Session} {i : ℕ} {s : Session}
    (h : findActive l = some (i, s)) : l[i]? = some s ∧ s.isActive = true := by
  induction l generalizing i with
  | nil => simp [findActive] at h
  | cons t rest ih =>
    by_cases ht : t.isActive
    · rw [findActive, if_pos ht] at h
      injection h with h1
      injection h1 with h2 h3
      subst h2
      subst h3
      exact ⟨by simp, ht⟩
    · rw [findActive, if_neg ht] at h
      rcases Option.map_eq_some'.mp h with ⟨⟨j, s0⟩, hj, hf⟩
      injection hf with h2 h3
      subst h2
      subst h3
      obtain ⟨hrest, hact⟩ := ih hj
      exact ⟨by simpa using hrest, hact⟩

theorem findActive_set {l : List Session} {i : ℕ} {s : Session}
    (h : findActive l = some (i, s)) (s' : Session)
    (hs' : s'.isActive = true) : findActive (l.set i s') = some (i, s') := by
  induction l generalizing i with
  | nil => simp [findActive] at h
  | cons t rest ih =>
    by_cases ht : t.isActive
    · rw [findActive, if_pos ht] at h
      injection h with h1
      injection h1 with h2 h3
      subst h2
      simp [findActive, hs']
    · rw [findActive, if_neg ht] at h
      rcases Option.map_eq_some'.mp h with ⟨⟨j, s0⟩, hj, hf⟩
      injection hf with h2 h3
      subst h2
      subst h3
      have hset := ih hj
      simp only [List.set_cons_succ, findActive, if_neg ht, hset]
      rfl

theorem findActive_append_one {l : List Session} {t : Session}
    (hl : ∀ s ∈ l, s.isActive = false) (ht : t.isActive = true) :
    findActive (l ++ [t]) = some (l.length, t) := by
  induction l with
  | nil => simp [findActive, ht]
  | cons u rest ih =>
    have hu : ¬ u.isActive = true := by
      simp [hl u (by simp)]
    have hrest : ∀ s ∈ rest, s.isActive = false := fun s hs => hl s (by simp [hs])
    rw [List.cons_append, findActive, if_neg hu, ih hrest]
    simp

theorem committed_user_nonneg {α : Type} {db : DB} {r : MutResult DB α}
    (h1 : 0 ≤ db.user.credits) (h2 : 0 ≤ r.state.user.credits) :
    0 ≤ (committed db r).user.credits := by
  unfold committed
  split
  · exact h2
  · exact h1

theorem startSession_ok {db : DB} {now : ℕ} {lf lt : String} {sid : ℕ}
    (h : (startSession now lf lt db).result = .ok sid) :
    sid = db.sessions.length ∧
    ¬ db.user.credits ≤ 0 ∧
    ¬ db.user.credits < minimumCharge ∧
    (startSession now lf lt db).state =
      ⟨{ db.user with
           credits := round2 (db.user.credits - minimumCharge)
           lastActive := now },
        db.sessions.map (closeStale now) ++
          [{ userId := 0
             creditsUsed := minimumCharge
             secondsUsed := some 3
             languageFrom := lf
             languageTo := lt
             startedAt := now
             endedAt := none
             isActive := true }]⟩ := by
  unfold startSession at h ⊢
  split at h
  · exact absurd h (by simp)
  · split at h
    · exact absurd h (by simp)
    · rename_i h1 h2
      injection h with h3
      refine ⟨?_, h1, h2, ?_⟩
      · rw [← h3, List.length_map]
      · simp [h1, h2]

theorem updateFractionalCredits_success (now : ℕ) (q : ℚ) {db : DB} {i : ℕ}
    {s : Session}
    (hfa : findActive db.sessions = some (i, s))
    (hge : ¬ db.user.credits < q / 60) :
    updateFractionalCredits now q db =
      ⟨⟨{ db.user with
            credits := round2 (db.user.credits - q / 60)
            lastActive := now },
        db.sessions.set i
          { s with
              secondsUsed := some (s.secondsUsed.getD 0 + q)
              creditsUsed := round2 ((s.secondsUsed.getD 0 + q) / 60) }⟩,
       .ok { creditsRemaining := round2 (db.user.credits - q / 60)
             sessionCreditsUsed := round2 ((s.secondsUsed.getD 0 + q) / 60)
             secondsUsed := s.secondsUsed.getD 0 + q }⟩ := by
  unfold updateFractionalCredits
  rw [hfa]
  simp [hge]

theorem updateFractionalCredits_insufficient (now : ℕ) (q : ℚ) {db : DB}
    {i : ℕ} {s : Session}
    (hfa : findActive db.sessions = some (i, s))
    (hlt : db.user.credits < q / 60) :
    updateFractionalCredits now q db =
      ⟨⟨{ db.user with credits := 0, lastActive := now },
        db.sessions.set i
          { s with
              isActive := false
              endedAt := some now
              secondsUsed := some (s.secondsUsed.getD 0 + q)
              creditsUsed := round2 ((s.secondsUsed.getD 0 + q) / 60) }⟩,
       .error "Insufficient credits - session ended"⟩ := by
  unfold updateFractionalCredits
  rw [hfa]
  simp [hlt]

theorem endSession_not_active (now : ℕ) {db : DB} {sid : ℕ} {s : Session}
    (hs : db.sessions[sid]? = some s) (hin : s.isActive = false) :
    endSession now sid db = ⟨db, .ok none⟩ := by
  unfold endSession
  rw [hs]
  simp [hin]

theorem endSession_active_eq (now : ℕ) {db : DB} {sid : ℕ} {s : Session}
    (hs : db.sessions[sid]? = some s) (hact : s.isActive = true) :
    endSession now sid db =
      ⟨{ db with sessions := db.sessions.set sid
                   { s with
                       isActive := false
                       endedAt := some now
                       secondsUsed := some
                         (max (((now - s.startedAt) / 1000 : ℕ) : ℚ)
                           (s.secondsUsed.getD 0))
                       creditsUsed := max minimumCharge
                         (round2 (max (((now - s.startedAt) / 1000 : ℕ) : ℚ)
                             (s.secondsUsed.getD 0) / 60)) } },
       .ok (some
          { creditsUsed := max minimumCharge
              (round2 (max (((now - s.startedAt) / 1000 : ℕ) : ℚ)
                  (s.secondsUsed.getD 0) / 60))
            secondsUsed := max (((now - s.startedAt) / 1000 : ℕ) : ℚ)
              (s.secondsUsed.getD 0)
            duration := now - s.startedAt })⟩ := by
  unfold endSession
  rw [hs]
  simp [hact]

theorem committed_ok {σ α : Type} (db st : σ) (a : α) :
    committed db ⟨st, .ok a⟩ = st := rfl

theorem committed_error {σ α : Type} (db st : σ) (e : String) :
    committed db (⟨st, .error e⟩ : MutResult σ α) = db := rfl

theorem clientTick_ok (now sid : ℕ) {db st : DB} {tr : TickResult}
    (h : updateFractionalCredits now 3 db = ⟨st, .ok tr⟩) :
    clientTick now sid db =
      if tr.creditsRemaining ≤ 15 / 100 then
        ⟨committed st (endSession now sid st), true⟩
      else ⟨st, false⟩ := by
  unfold clientTick
  rw [h]

theorem clientTick_error (now sid : ℕ) {db st : DB} {e : String}
    (h : updateFractionalCredits now 3 db = ⟨st, .error e⟩) :
    clientTick now sid db = ⟨committed db (endSession now sid db), true⟩ := by
  unfold clientTick
  rw [h]

theorem confirmPayment_completed (sid : Option String) {db : PayDB}
    (h : db.purchase.status = .completed) :
    confirmPayment sid db = ⟨db, .error "Purchase already completed"⟩ := by
  unfold confirmPayment
  rw [if_pos h]

theorem confirmPayment_not_completed (sid : Option String) {db : PayDB}
    (h : ¬ db.purchase.status = .completed) :
    confirmPayment sid db =
      ⟨⟨{ db.user with
            credits := db.user.credits + db.purchase.credits
            totalCreditsEverPurchased :=
              db.user.totalCreditsEverPurchased + db.purchase.credits },
        { db.purchase with
            status := .completed
            stripePaymentIntentId := sid }⟩,
       .ok { newBalance := db.user.credits + db.purchase.credits
             creditsAdded := db.purchase.credits }⟩ := by
  unfold confirmPayment
  rw [if_neg h]

theorem round2_tick (k : ℕ) :
    round2 ((3 + 3 * ((k : ℚ) + 1)) / 60) = (5 + 5 * ((k : ℚ) + 1)) / 100 := by
  have h1 : (3 + 3 * ((k : ℚ) + 1)) / 60 * 100 + 1 / 2 =
      ((10 + 5 * (k : ℤ) : ℤ) : ℚ) + 1 / 2 := by
    push_cast
    ring
  rw [round2, jsRound, h1, Int.floor_int_add]
  have h2 : ⌊(1 / 2 : ℚ)⌋ = 0 := by norm_num
  rw [h2]
  push_cast
  ring

theorem tickN_usage {now : ℕ} {sid : ℕ} :
    ∀ (n : ℕ) {k : ℕ} {db db2 : DB},
      (∃ s, findActive db.sessions = some (sid, s) ∧
        s.secondsUsed = some (3 + 3 * (k : ℚ)) ∧
        s.creditsUsed = (5 + 5 * (k : ℚ)) / 100) →
      tickN now n db = some db2 →
      ∃ s, findActive db2.sessions = some (sid, s) ∧
        s.secondsUsed = some (3 + 3 * ((k + n : ℕ) : ℚ)) ∧
        s.creditsUsed = (5 + 5 * ((k + n : ℕ) : ℚ)) / 100 := by
  intro n
  induction n with
  | zero =>
    intro k db db2 hinv hrun
    simp only [tickN, Option.some.injEq] at hrun
    subst hrun
    simpa using hinv
  | succ n ih =>
    intro k db db2 hinv hrun
    obtain ⟨s, hfa, hsec, hcred⟩ := hinv
    have hact := (findActive_eq hfa).2
    rw [tickN] at hrun
    rcases hopt : tickOnce now db with - | db1
    · rw [hopt] at hrun
      exact absurd hrun (by simp)
    · rw [hopt] at hrun
      rw [Option.some_bind] at hrun
      by_cases hlt : db.user.credits < 3 / 60
      · have htone : tickOnce now db = none := by
          unfold tickOnce
          rw [updateFractionalCredits_insufficient now 3 hfa hlt]
        rw [htone] at hopt
        exact absurd hopt (by simp)
      · have htone : tickOnce now db =
            some ⟨{ db.user with
                      credits := round2 (db.user.credits - 3 / 60)
                      lastActive := now },
                  db.sessions.set sid
                    { s with
                        secondsUsed := some (s.secondsUsed.getD 0 + 3)
                        creditsUsed :=
                          round2 ((s.secondsUsed.getD 0 + 3) / 60) }⟩ := by
          unfold tickOnce
          rw [updateFractionalCredits_success now 3 hfa hlt]
        rw [htone] at hopt
        injection hopt with hdb1
        subst hdb1
        have hgd : s.secondsUsed.getD 0 = 3 + 3 * (k : ℚ) := by
          rw [hsec]
          rfl
        have hq1 : s.secondsUsed.getD 0 + 3 = 3 + 3 * (((k + 1 : ℕ)) : ℚ) := by
          rw [hgd]
          push_cast
          ring
        have hq2 : round2 ((s.secondsUsed.getD 0 + 3) / 60) =
            (5 + 5 * (((k + 1 : ℕ)) : ℚ)) / 100 := by
          rw [hq1]
          have hc1 : (((k + 1 : ℕ)) : ℚ) = (k : ℚ) + 1 := by push_cast; ring
          rw [hc1]
          exact round2_tick k
        have hfa1 := findActive_set hfa
          { s with
              secondsUsed := some (s.secondsUsed.getD 0 + 3)
              creditsUsed := round2 ((s.secondsUsed.getD 0 + 3) / 60) } hact
        have hres := ih ⟨_, hfa1, by
            show some (s.secondsUsed.getD 0 + 3) = _
            rw [hq1], by
            show round2 ((s.secondsUsed.getD 0 + 3) / 60) = _
            exact hq2⟩ hrun
        have hnat : k + 1 + n = k + (n + 1) := by omega
        rw [hnat] at hres
        exact hres

/-! Claim theorems. -/

/-- C1: after every committed balance mutation — session start, per-tick
deduction (including its insufficient-credits branch), session end,
explicit debit, credit — the account's credit balance stays nonnegative;
the states written by the handlers before commit are nonnegative as well,
so no negative balance is ever observable. -/
theorem committed_creditBalance_nonneg
    (db : DB) (now sid : ℕ) (lf lt : String) (q amt : ℚ)
    (hdb : 0 ≤ db.user.credits) (hamt : 0 ≤ amt) :
    (0 ≤ (startSession now lf lt db).state.user.credits ∧
      0 ≤ (committed db (startSession now lf lt db)).user.credits) ∧
    (0 ≤ (updateFractionalCredits now q db).state.user.credits ∧
      0 ≤ (committed db (updateFractionalCredits now q db)).user.credits) ∧
    (0 ≤ (endSession now sid db).state.user.credits ∧
      0 ≤ (committed db (endSession now sid db)).user.credits) ∧
    (0 ≤ (deductCredits now amt db).state.user.credits ∧
      0 ≤ (committed db (deductCredits now amt db)).user.credits) ∧
    (0 ≤ (addCredits now amt db).state.user.credits ∧
      0 ≤ (committed db (addCredits now amt db)).user.credits) := by
  have hstart : 0 ≤ (startSession now lf lt db).state.user.credits := by
    unfold startSession
    split
    · exact hdb
    · split
      · exact hdb
      · rename_i h1 h2
        exact round2_nonneg (sub_nonneg.mpr (not_lt.mp h2))
  have htick : 0 ≤ (updateFractionalCredits now q db).state.user.credits := by
    rcases hfa : findActive db.sessions with - | ⟨i, s⟩
    · unfold updateFractionalCredits
      rw [hfa]
      exact hdb
    · by_cases hlt : db.user.credits < q / 60
      · rw [updateFractionalCredits_insufficient now q hfa hlt]
      · rw [updateFractionalCredits_success now q hfa hlt]
        exact round2_nonneg (sub_nonneg.mpr (not_lt.mp hlt))
  have hend : 0 ≤ (endSession now sid db).state.user.credits := by
    unfold endSession
    split
    · exact hdb
    · split
      · exact hdb
      · exact hdb
  have hded : 0 ≤ (deductCredits now amt db).state.user.credits := by
    unfold deductCredits
    split
    · exact hdb
    · rename_i h
      exact round2_nonneg (sub_nonneg.mpr (not_lt.mp h))
  have hadd : 0 ≤ (addCredits now amt db).state.user.credits :=
    add_nonneg hdb hamt
  exact ⟨⟨hstart, committed_user_nonneg hdb hstart⟩,
    ⟨htick, committed_user_nonneg hdb htick⟩,
    ⟨hend, committed_user_nonneg hdb hend⟩,
    ⟨hded, committed_user_nonneg hdb hded⟩,
    ⟨hadd, committed_user_nonneg hdb hadd⟩⟩

/-- Witness for the balance invariant: the sample account with balance 10
satisfies the hypotheses, and a committed session start keeps the balance
nonnegative. -/
theorem committed_creditBalance_nonneg_witness :
    (0 : ℚ) ≤ sampleDB.user.credits ∧ (0 : ℚ) ≤ 3 ∧
    0 ≤ (committed sampleDB (startSession 5000 "en" "no" sampleDB)).user.credits := by
  refine ⟨by norm_num [sampleDB, sampleUser], by norm_num, ?_⟩
  exact (committed_creditBalance_nonneg sampleDB 5000 0 "en" "no" 3 3
    (by norm_num [sampleDB, sampleUser]) (by norm_num)).1.2

/-- C2: a successful `startSession` closes every previously active session
of the account and then inserts the new one, so afterwards exactly one
session is active — the newly created one — no matter how many were active
before (two rapid reserves therefore leave exactly one active session). -/
theorem startSession_single_active
    (db : DB) (now : ℕ) (lf lt : String) (sid : ℕ)
    (h : (startSession now lf lt db).result = .ok sid) :
    activeCount (startSession now lf lt db).state.sessions = 1 ∧
    (∃ s, (startSession now lf lt db).state.sessions[sid]? = some s ∧
      s.isActive = true) ∧
    (∀ j t, j ≠ sid →
      (startSession now lf lt db).state.sessions[j]? = some t →
      t.isActive = false) := by
  obtain ⟨hsid, -, -, hstate⟩ := startSession_ok h
  subst hsid
  rw [hstate]
  have hlen : (db.sessions.map (closeStale now)).length = db.sessions.length :=
    List.length_map _ _
  have hclosed : ∀ a ∈ db.sessions.map (closeStale now), ¬ a.isActive = true := by
    intro a ha
    rcases List.mem_map.mp ha with ⟨b, -, rfl⟩
    simp [closeStale_not_active]
  refine ⟨?_, ?_, ?_⟩
  · unfold activeCount
    rw [List.filter_append, List.filter_eq_nil_iff.mpr hclosed]
    simp
  · refine ⟨{ userId := 0
              creditsUsed := minimumCharge
              secondsUsed := some 3
              languageFrom := lf
              languageTo := lt
              startedAt := now
              endedAt := none
              isActive := true }, ?_, rfl⟩
    rw [← hlen]
    exact List.getElem?_concat_length _ _
  · intro j t hj hjt
    rcases lt_or_ge j (db.sessions.map (closeStale now)).length with hlt | hge
    · rw [List.getElem?_append_left hlt] at hjt
      have hmem := List.getElem?_mem hjt
      have := hclosed t hmem
      simpa using this
    · rw [List.getElem?_append_right hge] at hjt
      have hj1 : 1 ≤ j - (db.sessions.map (closeStale now)).length := by
        omega
      rw [List.getElem?_eq_none (by simpa using hj1)] at hjt
      exact absurd hjt (by simp)

/-- Witness for the single-active-session property: starting on the sample
account (which already has one active session) leaves exactly one active
session, the new one at index 1. -/
theorem startSession_single_active_witness :
    activeCount (startSession 5000 "en" "no" sampleDB).state.sessions = 1 ∧
    (∃ s, (startSession 5000 "en" "no" sampleDB).state.sessions[1]? = some s ∧
      s.isActive = true) ∧
    (∀ j t, j ≠ 1 →
      (startSession 5000 "en" "no" sampleDB).state.sessions[j]? = some t →
      t.isActive = false) :=
  startSession_single_active sampleDB 5000 "en" "no" 1 (by
    unfold startSession
    rw [if_neg (by norm_num [sampleDB, sampleUser]),
      if_neg (by norm_num [sampleDB, sampleUser, minimumCharge])]
    simp [sampleDB])

/-- C8: starting a session with balance exactly 0.05 succeeds, leaves the
balance exactly 0, and creates the active session with 3 seconds and 0.05
credits used; starting with any balance below 0.05 throws an
insufficient-credits error and commits nothing. -/
theorem startSession_boundary (db : DB) (now : ℕ) (lf lt : String) :
    (db.user.credits = minimumCharge →
      (startSession now lf lt db).result = .ok db.sessions.length ∧
      (startSession now lf lt db).state.user.credits = 0 ∧
      (startSession now lf lt db).state.sessions[db.sessions.length]? =
        some { userId := 0
               creditsUsed := minimumCharge
               secondsUsed := some 3
               languageFrom := lf
               languageTo := lt
               startedAt := now
               endedAt := none
               isActive := true }) ∧
    (db.user.credits < minimumCharge →
      (∃ e, (startSession now lf lt db).result = .error e) ∧
      committed db (startSession now lf lt db) = db) := by
  constructor
  · intro h5
    have h0 : ¬ db.user.credits ≤ 0 := by
      rw [h5]
      norm_num [minimumCharge]
    have hmin : ¬ db.user.credits < minimumCharge := by
      rw [h5]
      exact lt_irrefl _
    unfold startSession
    rw [if_neg h0, if_neg hmin]
    refine ⟨by simp, ?_, ?_⟩
    · show round2 (db.user.credits - minimumCharge) = 0
      rw [h5, sub_self]
      norm_num [round2, jsRound]
    · show ((db.sessions.map (closeStale now)) ++ _)[db.sessions.length]? = _
      rw [← List.length_map db.sessions (closeStale now)]
      exact List.getElem?_concat_length _ _
  · intro hlt
    by_cases h0 : db.user.credits ≤ 0
    · unfold startSession
      rw [if_pos h0]
      exact ⟨⟨_, rfl⟩, rfl⟩
    · unfold startSession
      rw [if_neg h0, if_pos hlt]
      exact ⟨⟨_, rfl⟩, rfl⟩

/-- Witness for the start boundaries: balance exactly 0.05 ends at balance
0; balance 0.04 fails and the account is unchanged. -/
theorem startSession_boundary_witness :
    (startSession 5000 "en" "no" exactMinDB).state.user.credits = 0 ∧
    (∃ e, (startSession 5000 "en" "no" insufficientDB).result = .error e) ∧
    committed insufficientDB (startSession 5000 "en" "no" insufficientDB) =
      insufficientDB := by
  refine ⟨((startSession_boundary exactMinDB 5000 "en" "no").1
    (by norm_num [exactMinDB, sampleUser, minimumCharge])).2.1, ?_, ?_⟩
  · exact ((startSession_boundary insufficientDB 5000 "en" "no").2
      (by norm_num [insufficientDB, sampleUser, minimumCharge])).1
  · exact ((startSession_boundary insufficientDB 5000 "en" "no").2
      (by norm_num [insufficientDB, sampleUser, minimumCharge])).2

/-- C6: ending an active session reconciles the final seconds to the
larger of the tick-accumulated `secondsUsed` and the wall-clock seconds
elapsed since `startedAt`, records at least the minimum charge of 0.05 and
otherwise `secondsUsed / 60` rounded to 2 decimals, and leaves the user
row — in particular the credit balance — unchanged. -/
theorem endSession_active_reconciles (db : DB) (now sid : ℕ) (s : Session)
    (hs : db.sessions[sid]? = some s) (hact : s.isActive = true) :
    (endSession now sid db).state.user = db.user ∧
    ∃ fu, (endSession now sid db).result = .ok (some fu) ∧
      fu.secondsUsed =
        max (((now - s.startedAt) / 1000 : ℕ) : ℚ) (s.secondsUsed.getD 0) ∧
      fu.creditsUsed = max minimumCharge (round2 (fu.secondsUsed / 60)) ∧
      minimumCharge ≤ fu.creditsUsed ∧
      fu.duration = now - s.startedAt := by
  rw [endSession_active_eq now hs hact]
  exact ⟨rfl, _, rfl, rfl, rfl, le_max_left _ _, rfl⟩

/-- Witness: ending the sample active session at time 5000ms keeps the
user row and reconciles to the wall-clock 5 seconds. -/
theorem endSession_active_reconciles_witness :
    (endSession 5000 0 sampleDB).state.user = sampleDB.user ∧
    ∃ fu, (endSession 5000 0 sampleDB).result = .ok (some fu) ∧
      fu.secondsUsed =
        max (((5000 - sampleActiveSession.startedAt) / 1000 : ℕ) : ℚ)
          (sampleActiveSession.secondsUsed.getD 0) ∧
      fu.creditsUsed = max minimumCharge (round2 (fu.secondsUsed / 60)) ∧
      minimumCharge ≤ fu.creditsUsed ∧
      fu.duration = 5000 - sampleActiveSession.startedAt :=
  endSession_active_reconciles sampleDB 5000 0 sampleActiveSession rfl rfl

/-- C5 counterexample: the first `endSession` on the sample active session
returns the finalized usage, while a second `endSession` on the resulting
state returns `none` (the bare `return;` of the source) — not the same
`FinalUsage` as the first call. -/
theorem endSession_second_call_no_usage :
    (endSession 5000 0 sampleDB).result =
      .ok (some { creditsUsed := 8 / 100, secondsUsed := 5, duration := 5000 }) ∧
    (endSession 5000 0 ((endSession 5000 0 sampleDB).state)).result =
      .ok none ∧
    (endSession 5000 0 ((endSession 5000 0 sampleDB).state)).result ≠
      (endSession 5000 0 sampleDB).result := by
  have hs0 : sampleDB.sessions[0]? = some sampleActiveSession := rfl
  have h1 := endSession_active_eq 5000 hs0 rfl
  have hmax : max (((5000 - sampleActiveSession.startedAt) / 1000 : ℕ) : ℚ)
      (sampleActiveSession.secondsUsed.getD 0) = 5 := by
    norm_num [sampleActiveSession, max_def]
  rw [hmax] at h1
  have hcred : max minimumCharge (round2 ((5 : ℚ) / 60)) = 8 / 100 := by
    norm_num [minimumCharge, round2, jsRound, max_def]
  rw [hcred] at h1
  have hfirst : (endSession 5000 0 sampleDB).result =
      .ok (some { creditsUsed := 8 / 100, secondsUsed := 5, duration := 5000 }) := by
    rw [h1]
    rfl
  have hS : (endSession 5000 0 sampleDB).state =
      ⟨sampleUser, [sampleClosedSession]⟩ := by
    rw [h1]
    rfl
  have h2 : endSession 5000 0 (⟨sampleUser, [sampleClosedSession]⟩ : DB) =
      ⟨⟨sampleUser, [sampleClosedSession]⟩, .ok none⟩ :=
    endSession_not_active 5000 rfl rfl
  refine ⟨hfirst, ?_, ?_⟩
  · rw [hS, h2]
  · rw [hS, h2, hfirst]
    simp

/-- C5 amended: closing an already-closed session is an idempotent no-op —
it raises no error, performs no write and no debit — but it returns no
`FinalUsage` (the handler returns `undefined`), not the previously
finalized usage. -/
theorem endSession_closed_noop (now : ℕ) (db : DB) (sid : ℕ) (s : Session)
    (hs : db.sessions[sid]? = some s) (hin : s.isActive = false) :
    endSession now sid db = ⟨db, .ok none⟩ :=
  endSession_not_active now hs hin

/-- Witness: closing the already-ended sample session changes nothing and
returns `none`. -/
theorem endSession_closed_noop_witness :
    endSession 7000 0 endedDB = ⟨endedDB, .ok none⟩ :=
  endSession_closed_noop 7000 endedDB 0 endedSession rfl rfl

/-- C9: a purchase's credits are applied exactly once, when the purchase
first transitions to completed; re-invoking completion on an
already-completed purchase is detected by its status, throws, and commits
no change — the balance and `totalCreditsEverPurchased` stay as they are
and the credits are not applied again. -/
theorem confirmPayment_exactly_once (db db2 : PayDB)
    (sid sid2 : Option String)
    (h : db.purchase.status ≠ .completed)
    (h2 : db2.purchase.status = .completed) :
    ((confirmPayment sid db).result =
      .ok { newBalance := db.user.credits + db.purchase.credits
            creditsAdded := db.purchase.credits } ∧
      (confirmPayment sid db).state.user.credits =
        db.user.credits + db.purchase.credits ∧
      (confirmPayment sid db).state.user.totalCreditsEverPurchased =
        db.user.totalCreditsEverPurchased + db.purchase.credits ∧
      (confirmPayment sid db).state.purchase.status = .completed) ∧
    ((∃ e, (confirmPayment sid2 db2).result = .error e) ∧
      committed db2 (confirmPayment sid2 db2) = db2) ∧
    committed (confirmPayment sid db).state
        (confirmPayment sid2 (confirmPayment sid db).state) =
      (confirmPayment sid db).state := by
  have hstat : (confirmPayment sid db).state.purchase.status =
      PurchaseStatus.completed := by
    rw [confirmPayment_not_completed sid h]
  refine ⟨?_, ?_, ?_⟩
  · rw [confirmPayment_not_completed sid h]
    exact ⟨rfl, rfl, rfl, rfl⟩
  · rw [confirmPayment_completed sid2 h2]
    exact ⟨⟨_, rfl⟩, rfl⟩
  · rw [confirmPayment_completed sid2 hstat]
    rfl

/-- Witness: completing the sample pending purchase adds its 30 credits
once; re-completing an already-completed purchase throws and changes
nothing, and re-invoking on the state of the first completion commits
nothing. -/
theorem confirmPayment_exactly_once_witness :
    ((confirmPayment none samplePayDB).result =
      .ok { newBalance := samplePayDB.user.credits + samplePayDB.purchase.credits
            creditsAdded := samplePayDB.purchase.credits } ∧
      (confirmPayment none samplePayDB).state.user.credits =
        samplePayDB.user.credits + samplePayDB.purchase.credits ∧
      (confirmPayment none samplePayDB).state.user.totalCreditsEverPurchased =
        samplePayDB.user.totalCreditsEverPurchased +
          samplePayDB.purchase.credits ∧
      (confirmPayment none samplePayDB).state.purchase.status = .completed) ∧
    ((∃ e, (confirmPayment none sampleCompletedPayDB).result = .error e) ∧
      committed sampleCompletedPayDB (confirmPayment none sampleCompletedPayDB) =
        sampleCompletedPayDB) ∧
    committed (confirmPayment none samplePayDB).state
        (confirmPayment none (confirmPayment none samplePayDB).state) =
      (confirmPayment none samplePayDB).state :=
  confirmPayment_exactly_once samplePayDB sampleCompletedPayDB none none
    (by decide) rfl

/-- C10: `createOrUpdateUser` on an existing Clerk id patches only `email`,
`name` and `lastActive`, leaving `credits`, `totalCreditsEverPurchased`,
`defaultLanguage` and `createdAt` untouched; on an unknown Clerk id it
inserts a fresh user with exactly 10 credits and 0 lifetime purchases. -/
theorem createOrUpdateUser_frame (now : ℕ) (cid email name : String) :
    (∀ pre, ∀ u : User, ∀ post, (∀ v ∈ pre, v.clerkId ≠ cid) →
      u.clerkId = cid →
      createOrUpdateUser now cid email name (pre ++ u :: post) =
        pre ++ { u with email := email, name := name, lastActive := now }
          :: post) ∧
    (∀ us, (∀ v ∈ us, v.clerkId ≠ cid) →
      createOrUpdateUser now cid email name us =
        us ++ [{ clerkId := cid
                 email := email
                 name := name
                 credits := 10
                 totalCreditsEverPurchased := 0
                 defaultLanguage := none
                 createdAt := now
                 lastActive := now }]) := by
  constructor
  · intro pre
    induction pre with
    | nil =>
      intro u post hpre hu
      simp [createOrUpdateUser, hu]
    | cons v pre ih =>
      intro u post hpre hu
      have hv : ¬ v.clerkId = cid := hpre v (by simp)
      have hpre2 : ∀ w ∈ pre, w.clerkId ≠ cid := fun w hw => hpre w (by simp [hw])
      simp [createOrUpdateUser, hv, ih u post hpre2 hu]
  · intro us
    induction us with
    | nil =>
      intro hus
      simp [createOrUpdateUser]
    | cons v us ih =>
      intro hus
      have hv : ¬ v.clerkId = cid := hus v (by simp)
      have hus2 : ∀ w ∈ us, w.clerkId ≠ cid := fun w hw => hus w (by simp [hw])
      simp [createOrUpdateUser, hv, ih hus2]

/-- Witness: signing in the sample user again updates email, name and last
activity only; signing in an unknown Clerk id appends a fresh 10-credit
account. -/
theorem createOrUpdateUser_frame_witness :
    createOrUpdateUser 9000 "user_1" "new@example.com" "Ada L." [sampleUser] =
      [{ sampleUser with
          email := "new@example.com", name := "Ada L.", lastActive := 9000 }] ∧
    createOrUpdateUser 9000 "user_2" "bob@example.com" "Bob" [sampleUser] =
      [sampleUser,
        { clerkId := "user_2"
          email := "bob@example.com"
          name := "Bob"
          credits := 10
          totalCreditsEverPurchased := 0
          defaultLanguage := none
          createdAt := 9000
          lastActive := 9000 }] := by
  constructor
  · have h := (createOrUpdateUser_frame 9000 "user_1" "new@example.com"
      "Ada L.").1 [] sampleUser [] (by simp) rfl
    simpa using h
  · have h := (createOrUpdateUser_frame 9000 "user_2" "bob@example.com"
      "Bob").2 [sampleUser] (by
        intro v hv
        rw [List.mem_singleton] at hv
        subst hv
        simp [sampleUser])
    simpa using h

/-- C3 counterexample: on an account with balance 0.15 the tick's debit
succeeds and leaves 0.10 — strictly more than the claimed 0.05 floor — yet
the client stops tracking, fires the depletion callback, and the session
ends up closed instead of remaining active. -/
theorem clientTick_stops_above_claimed_floor :
    (updateFractionalCredits 5000 3 lowBalanceDB).result =
      .ok { creditsRemaining := 10 / 100
            sessionCreditsUsed := 10 / 100
            secondsUsed := 6 } ∧
    minimumCharge < 10 / 100 ∧
    (clientTick 5000 0 lowBalanceDB).depleted = true ∧
    (∃ s2, (clientTick 5000 0 lowBalanceDB).db.sessions[0]? = some s2 ∧
      s2.isActive = false) := by
  have hfa : findActive lowBalanceDB.sessions =
      some (0, sampleActiveSession) := rfl
  have hc : lowBalanceDB.user.credits = 15 / 100 := rfl
  have hsd : sampleActiveSession.secondsUsed.getD 0 = (3 : ℚ) := rfl
  have hge : ¬ lowBalanceDB.user.credits < 3 / 60 := by
    rw [hc]
    norm_num
  have hsucc := updateFractionalCredits_success 5000 3 hfa hge
  rw [hc, hsd] at hsucc
  have hr1 : round2 ((15 : ℚ) / 100 - 3 / 60) = 10 / 100 := by
    norm_num [round2, jsRound]
  have hr2 : round2 (((3 : ℚ) + 3) / 60) = 10 / 100 := by
    norm_num [round2, jsRound]
  rw [hr1, hr2] at hsucc
  refine ⟨?_, by norm_num [minimumCharge], ?_, ?_⟩
  · rw [hsucc]
    norm_num
  · rw [clientTick_ok 5000 0 hsucc, if_pos (by norm_num)]
  · rw [clientTick_ok 5000 0 hsucc, if_pos (by norm_num)]
    have hst1 : (⟨{ lowBalanceDB.user with credits := 10 / 100, lastActive := 5000 },
        lowBalanceDB.sessions.set 0
          { sampleActiveSession with
              secondsUsed := some ((3 : ℚ) + 3)
              creditsUsed := 10 / 100 }⟩ : DB).sessions[0]? =
        some { sampleActiveSession with
                 secondsUsed := some ((3 : ℚ) + 3)
                 creditsUsed := 10 / 100 } := rfl
    rw [endSession_active_eq 5000 hst1 rfl, committed_ok]
    exact ⟨_, rfl, rfl⟩

/-- C3 amended: after a tick whose debit succeeds, the client stops the
session and fires the depletion callback iff the remaining balance is at
most 0.15 (the threshold in `useTrackUsage.tsx`), not 0.05; only above
0.15 does the session remain active. -/
theorem clientTick_depletes_iff (now : ℕ) (db : DB) (i : ℕ) (s : Session)
    (tr : TickResult)
    (hfa : findActive db.sessions = some (i, s))
    (hok : (updateFractionalCredits now 3 db).result = .ok tr) :
    ((clientTick now i db).depleted = true ↔
      tr.creditsRemaining ≤ 15 / 100) ∧
    ∃ s2, (clientTick now i db).db.sessions[i]? = some s2 ∧
      (s2.isActive = true ↔ ¬ tr.creditsRemaining ≤ 15 / 100) := by
  have hsi := (findActive_eq hfa).1
  have hact := (findActive_eq hfa).2
  have hilen : i < db.sessions.length := by
    by_contra hge
    rw [List.getElem?_eq_none (by omega)] at hsi
    exact absurd hsi (by simp)
  by_cases hlt : db.user.credits < 3 / 60
  · rw [updateFractionalCredits_insufficient now 3 hfa hlt] at hok
    exact absurd hok (by simp)
  · have hsucc := updateFractionalCredits_success now 3 hfa hlt
    have htr : tr = { creditsRemaining := round2 (db.user.credits - 3 / 60)
                      sessionCreditsUsed :=
                        round2 ((s.secondsUsed.getD 0 + 3) / 60)
                      secondsUsed := s.secondsUsed.getD 0 + 3 } := by
      rw [hsucc] at hok
      exact (Except.ok.inj hok).symm
    subst htr
    rw [clientTick_ok now i hsucc]
    by_cases hth : round2 (db.user.credits - 3 / 60) ≤ 15 / 100
    · rw [if_pos hth]
      have hst1 : ((⟨{ db.user with
              credits := round2 (db.user.credits - 3 / 60)
              lastActive := now },
          db.sessions.set i
            { s with
                secondsUsed := some (s.secondsUsed.getD 0 + 3)
                creditsUsed :=
                  round2 ((s.secondsUsed.getD 0 + 3) / 60) }⟩ : DB)).sessions[i]? =
          some { s with
                   secondsUsed := some (s.secondsUsed.getD 0 + 3)
                   creditsUsed := round2 ((s.secondsUsed.getD 0 + 3) / 60) } :=
        List.getElem?_set_eq_of_lt _ hilen
    -- the ticked session keeps the original isActive flag, which is true
      rw [endSession_active_eq now hst1 hact, committed_ok]
      constructor
      · simp [hth]
      · exact ⟨_, List.getElem?_set_eq_of_lt _ (by simpa using hilen),
          by simp [hth]⟩
    · rw [if_neg hth]
      constructor
      · simp [hth]
      · exact ⟨_, List.getElem?_set_eq_of_lt _ hilen, by simp [hact, hth]⟩

/-- Witness for the amended depletion rule: on the sample account the tick
leaves 9.95 credits, above the 0.15 threshold, and the session stays
active. -/
theorem clientTick_depletes_iff_witness :
    (((clientTick 5000 0 sampleDB).depleted = true) ↔
      (995 / 100 : ℚ) ≤ 15 / 100) ∧
    ∃ s2, (clientTick 5000 0 sampleDB).db.sessions[0]? = some s2 ∧
      (s2.isActive = true ↔ ¬ (995 / 100 : ℚ) ≤ 15 / 100) := by
  have hfa : findActive sampleDB.sessions = some (0, sampleActiveSession) := rfl
  have hge : ¬ sampleDB.user.credits < 3 / 60 := by
    norm_num [sampleDB, sampleUser]
  have hok : (updateFractionalCredits 5000 3 sampleDB).result =
      .ok ⟨995 / 100, 10 / 100, 6⟩ := by
    rw [updateFractionalCredits_success 5000 3 hfa hge]
    norm_num [sampleDB, sampleUser, sampleActiveSession, round2, jsRound]
  exact clientTick_depletes_iff 5000 sampleDB 0 sampleActiveSession
    ⟨995 / 100, 10 / 100, 6⟩ hfa hok

/-- C4 counterexample: at balance 0.04 the tick's debit fails, but the
handler writes a session incremented to 6 seconds and a balance zeroed to
0 (a partial debit of the remaining 0.04) before throwing; and because the
thrown mutation rolls back, the committed state still has the session
active — it is not "finalized with usage unchanged" as claimed. -/
theorem failedTick_not_as_claimed :
    (updateFractionalCredits 5000 3 insufficientDB).result =
      .error "Insufficient credits - session ended" ∧
    committed insufficientDB (updateFractionalCredits 5000 3 insufficientDB) =
      insufficientDB ∧
    (∃ s2, insufficientDB.sessions[0]? = some s2 ∧ s2.isActive = true) ∧
    (updateFractionalCredits 5000 3 insufficientDB).state.user.credits = 0 ∧
    (updateFractionalCredits 5000 3 insufficientDB).state.sessions[0]? =
      some { sampleActiveSession with
               isActive := false
               endedAt := some 5000
               secondsUsed := some ((3 : ℚ) + 3)
               creditsUsed := 10 / 100 } := by
  have hfa : findActive insufficientDB.sessions =
      some (0, sampleActiveSession) := rfl
  have hc : insufficientDB.user.credits = 4 / 100 := rfl
  have hsd : sampleActiveSession.secondsUsed.getD 0 = (3 : ℚ) := rfl
  have hlt : insufficientDB.user.credits < 3 / 60 := by
    rw [hc]
    norm_num
  have h := updateFractionalCredits_insufficient 5000 3 hfa hlt
  rw [hsd] at h
  have hr : round2 (((3 : ℚ) + 3) / 60) = 10 / 100 := by
    norm_num [round2, jsRound]
  rw [hr] at h
  refine ⟨?_, ?_, ⟨sampleActiveSession, rfl, rfl⟩, ?_, ?_⟩
  · rw [h]
  · rw [h, committed_error]
  · rw [h]
  · rw [h]
    rfl

/-- C4 amended: when a tick's debit fails because the balance is below the
per-tick charge 0.05, the handler writes an ended session with
`secondsUsed` incremented by the tick's seconds and zeroes the remaining
balance, then throws — so the transaction commits nothing: balance,
session usage and `isActive` stay as they were, and the session is closed
only by the client's follow-up `endSession`, which performs no debit. -/
theorem failedTick_rolls_back (now : ℕ) (db : DB) (i : ℕ) (s : Session)
    (hfa : findActive db.sessions = some (i, s))
    (hlt : db.user.credits < minimumCharge) :
    (updateFractionalCredits now 3 db).result =
      .error "Insufficient credits - session ended" ∧
    committed db (updateFractionalCredits now 3 db) = db ∧
    (updateFractionalCredits now 3 db).state.user.credits = 0 ∧
    (updateFractionalCredits now 3 db).state.sessions[i]? =
      some { s with
               isActive := false
               endedAt := some now
               secondsUsed := some (s.secondsUsed.getD 0 + 3)
               creditsUsed := round2 ((s.secondsUsed.getD 0 + 3) / 60) } ∧
    (endSession now i db).state.user = db.user := by
  have hsi := (findActive_eq hfa).1
  have hact := (findActive_eq hfa).2
  have hilen : i < db.sessions.length := by
    by_contra hge
    rw [List.getElem?_eq_none (by omega)] at hsi
    exact absurd hsi (by simp)
  have hlt2 : db.user.credits < (3 : ℚ) / 60 := by
    have h36 : (3 : ℚ) / 60 = minimumCharge := by norm_num [minimumCharge]
    rw [h36]
    exact hlt
  have h := updateFractionalCredits_insufficient now 3 hfa hlt2
  refine ⟨?_, ?_, ?_, ?_, ?_⟩
  · rw [h]
  · rw [h, committed_error]
  · rw [h]
  · rw [h]
    exact List.getElem?_set_eq_of_lt _ hilen
  · rw [endSession_active_eq now hsi hact]

/-- Witness: the failed tick at balance 0.04 commits nothing and the
client's follow-up close leaves the user row untouched. -/
theorem failedTick_rolls_back_witness :
    (updateFractionalCredits 7000 3 insufficientDB).result =
      .error "Insufficient credits - session ended" ∧
    committed insufficientDB (updateFractionalCredits 7000 3 insufficientDB) =
      insufficientDB ∧
    (updateFractionalCredits 7000 3 insufficientDB).state.user.credits = 0 ∧
    (updateFractionalCredits 7000 3 insufficientDB).state.sessions[0]? =
      some { sampleActiveSession with
               isActive := false
               endedAt := some 7000
               secondsUsed := some (sampleActiveSession.secondsUsed.getD 0 + 3)
               creditsUsed :=
                 round2 ((sampleActiveSession.secondsUsed.getD 0 + 3) / 60) } ∧
    (endSession 7000 0 insufficientDB).state.user = insufficientDB.user :=
  failedTick_rolls_back 7000 insufficientDB 0 sampleActiveSession rfl
    (by norm_num [insufficientDB, sampleUser, minimumCharge])

/-- C7: a session created by `startSession` (3 seconds, 0.05 credits
up front) that then receives exactly `n` successful 3-second ticks records
`creditsUsed = 0.05 + 0.05 * n` and `secondsUsed = 3 + 3 * n`. -/
theorem session_usage_after_ticks (db db2 : DB) (startAt now : ℕ)
    (lf lt : String) (sid n : ℕ)
    (hstart : (startSession startAt lf lt db).result = .ok sid)
    (hrun : tickN now n (startSession startAt lf lt db).state = some db2) :
    ∃ s, db2.sessions[sid]? = some s ∧
      s.creditsUsed = 5 / 100 + 5 / 100 * (n : ℚ) ∧
      s.secondsUsed = some (3 + 3 * (n : ℚ)) := by
  obtain ⟨hsid, -, -, hstate⟩ := startSession_ok hstart
  rw [hstate] at hrun
  have hclosed : ∀ t ∈ db.sessions.map (closeStale startAt),
      t.isActive = false := by
    intro t ht
    rcases List.mem_map.mp ht with ⟨b, -, rfl⟩
    exact closeStale_not_active startAt b
  have hfa0 := findActive_append_one hclosed
    (show ({ userId := 0
             creditsUsed := minimumCharge
             secondsUsed := some 3
             languageFrom := lf
             languageTo := lt
             startedAt := startAt
             endedAt := none
             isActive := true } : Session).isActive = true from rfl)
  rw [List.length_map, ← hsid] at hfa0
  have hinv0 : ∃ s, findActive (db.sessions.map (closeStale startAt) ++
      [{ userId := 0
         creditsUsed := minimumCharge
         secondsUsed := some 3
         languageFrom := lf
         languageTo := lt
         startedAt := startAt
         endedAt := none
         isActive := true }]) = some (sid, s) ∧
      s.secondsUsed = some (3 + 3 * ((0 : ℕ) : ℚ)) ∧
      s.creditsUsed = (5 + 5 * ((0 : ℕ) : ℚ)) / 100 := by
    refine ⟨_, hfa0, ?_, ?_⟩
    · show some (3 : ℚ) = _
      norm_num
    · show minimumCharge = _
      norm_num [minimumCharge]
  have hres := tickN_usage n hinv0 hrun
  rw [Nat.zero_add] at hres
  obtain ⟨s, hfa2, hsec, hcred⟩ := hres
  exact ⟨s, (findActive_eq hfa2).1, by rw [hcred]; ring, hsec⟩

/-- Witness: starting on the sample account and ticking twice leaves the
session at index 1 with 0.15 credits used and 9 seconds. -/
theorem session_usage_after_ticks_witness :
    ∃ db2, tickN 400 2 (startSession 100 "en" "no" sampleDB).state =
        some db2 ∧
      ∃ s, db2.sessions[1]? = some s ∧
        s.creditsUsed = 5 / 100 + 5 / 100 * ((2 : ℕ) : ℚ) ∧
        s.secondsUsed = some (3 + 3 * ((2 : ℕ) : ℚ)) := by
  have hstart : (startSession 100 "en" "no" sampleDB).result = .ok 1 := by
    unfold startSession
    rw [if_neg (by norm_num [sampleDB, sampleUser]),
      if_neg (by norm_num [sampleDB, sampleUser, minimumCharge])]
    simp [sampleDB]
  obtain ⟨-, -, -, hstate⟩ := startSession_ok hstart
  have hmap : sampleDB.sessions.map (closeStale 100) = [closedOldSession] := rfl
  have hb0 : round2 (sampleDB.user.credits - minimumCharge) = 995 / 100 := by
    norm_num [sampleDB, sampleUser, minimumCharge, round2, jsRound]
  rw [hmap, hb0] at hstate
  have hsd : (startSession 100 "en" "no" sampleDB).state = startedDB := by
    rw [hstate]
    rfl
  have hfa1 : findActive startedDB.sessions = some (1, newSession100) := rfl
  have hge1 : ¬ startedDB.user.credits < 3 / 60 := by
    norm_num [startedDB, startedUser, sampleUser]
  have h1 : tickOnce 400 startedDB = some tick1DB := by
    unfold tickOnce
    rw [updateFractionalCredits_success 400 3 hfa1 hge1]
    norm_num [startedDB, startedUser, sampleUser, newSession100, tick1DB,
      minimumCharge, round2, jsRound, closedOldSession, sampleActiveSession]
  have hfa2 : findActive tick1DB.sessions =
      some (1, { newSession100 with
                   secondsUsed := some 6, creditsUsed := 10 / 100 }) := rfl
  have hge2 : ¬ tick1DB.user.credits < 3 / 60 := by
    norm_num [tick1DB, startedUser, sampleUser]
  have h2 : tickOnce 400 tick1DB = some tick2DB := by
    unfold tickOnce
    rw [updateFractionalCredits_success 400 3 hfa2 hge2]
    norm_num [tick1DB, tick2DB, startedUser, sampleUser, newSession100,
      minimumCharge, round2, jsRound, closedOldSession, sampleActiveSession]
  have hrun : tickN 400 2 (startSession 100 "en" "no" sampleDB).state =
      some tick2DB := by
    rw [hsd]
    show (tickOnce 400 startedDB).bind (tickN 400 1) = some tick2DB
    rw [h1, Option.some_bind]
    show (tickOnce 400 tick1DB).bind (tickN 400 0) = some tick2DB
    rw [h2, Option.some_bind]
    rfl
  exact ⟨tick2DB, hrun, session_usage_after_ticks sampleDB tick2DB 100 400
    "en" "no" 1 2 hstart hrun⟩

end Tolki
